import Mathlib

/-!
Shallow embedding of `src/bot.py` (class `DexTradingBot`), a single-threaded
polling trading bot.  Side-effecting Python methods become functions in a
state/exception monad `Proc`: the state is the trace of observable external
effects (Telegram post attempts, local diagnostic prints, database inserts),
and Python exceptions are `Except.error`.  External nondeterminism (what the
network / database do on each call) is an explicit `World` parameter.
Python floats and numeric JSON fields are modelled as rationals.
-/

deriving instance DecidableEq for Except

namespace DexBot

/-- A pair object as consumed by the bot (`bot.py` reads
`pairAddress`, `baseToken.symbol`, `priceUsd`, and the optional
`liquidity` and `volume.h24` fields; the latter two default to 0 via
`pair.get(..., 0)` when absent). -/
structure Pair where
  pairAddress : String
  baseTokenSymbol : String
  priceUsd : String
  liquidity : Option ℚ
  volumeH24 : Option ℚ
deriving DecidableEq, Repr

/-- Observable external effects of one run. -/
inductive Event where
  /-- An HTTP post of `text` to the Telegram relay for `chat_id`;
  `is_trade` records which destination flag `send_telegram_msg` was called with. -/
  | telegramPost (is_trade : Bool) (chat_id : String) (text : String)
  /-- The local `print(f"Telegram error: {e}")` diagnostic. -/
  | telegramLog (msg : String)
  /-- The local `print(f"API error: {e}")` diagnostic. -/
  | apiLog (msg : String)
  /-- A successful `INSERT INTO trades (pair_address, action, amount, price)`. -/
  | ledgerInsert (pair_address : String) (action : String) (amount : ℚ) (price : ℚ)
deriving DecidableEq, Repr

/-- Outcome of one `requests.post` to the Telegram relay. -/
inductive TgOutcome where
  /-- `requests.post` itself raised (network error, timeout). -/
  | netErr (msg : String)
  /-- A response arrived with the given HTTP status code. -/
  | resp (status : Nat)
deriving DecidableEq, Repr

/-- Outcome of the `requests.get` in `_fetch_pairs` together with the shape
of the response body. -/
inductive FetchOutcome where
  /-- `requests.get` raised (timeout, connection error). -/
  | reqExn (msg : String)
  /-- A response arrived but `response.json()` raised (malformed body). -/
  | jsonExn (status : Nat) (msg : String)
  /-- The body parsed but is not a JSON object, so `.get` raises `AttributeError`. -/
  | notDict (status : Nat)
  /-- A JSON object without a `pairs` key: `.get('pairs', [])` yields `[]`. -/
  | noPairs (status : Nat)
  /-- A JSON object whose `pairs` key holds the given list. -/
  | pairsList (status : Nat) (pairs : List Pair)
deriving DecidableEq, Repr

/-- Behaviour of the external world on each call the bot makes. -/
structure World where
  /-- Outcome of a Telegram post, as a function of destination and text. -/
  telegram : String → String → TgOutcome
  /-- `none` if the `INSERT` for this pair address succeeds, `some e` if the
  database raises with message `e`. -/
  ledger : String → Option String
  /-- Outcome of the DexScreener request. -/
  fetch : FetchOutcome

/-- The state/exception monad of the embedding: a computation reads the trace
of events so far and returns a result (or a raised Python exception, as
`Except.error` with the exception text) together with the extended trace.
Effects performed before an exception stay in the trace, as they do in Python. -/
def Proc (α : Type) : Type := List Event → Except String α × List Event

def pureP {α : Type} (a : α) : Proc α := fun t => (Except.ok a, t)

def bindP {α β : Type} (m : Proc α) (f : α → Proc β) : Proc β := fun t =>
  match m t with
  | (Except.ok a, t') => f a t'
  | (Except.error e, t') => (Except.error e, t')

def emit (e : Event) : Proc Unit := fun t => (Except.ok (), t ++ [e])

/-- `raise` in Python. -/
def throwP {α : Type} (e : String) : Proc α := fun t => (Except.error e, t)

/-- `try: m except Exception as e: h e` in Python. -/
def tryCatchP {α : Type} (m : Proc α) (h : String → Proc α) : Proc α := fun t =>
  match m t with
  | (Except.ok a, t') => (Except.ok a, t')
  | (Except.error e, t') => h e t'

/-- `Except.isOk` as a Bool. -/
def isOkE {ε α : Type} : Except ε α → Bool
  | Except.ok _ => true
  | Except.error _ => false

/-! ### Decimal strings (model of Python `float(...)` and float formatting) -/

def isDigitChar (c : Char) : Bool := 48 ≤ c.toNat && c.toNat ≤ 57

def digitsVal (l : List Char) : Nat := l.foldl (fun a c => a * 10 + (c.toNat - 48)) 0

/-- Split a character list at the first `'.'` (at most one allowed). -/
def splitAtDot : List Char → Option (List Char × List Char)
  | [] => some ([], [])
  | c :: cs =>
      if c = '.' then
        if cs.contains '.' then none else some ([], cs)
      else
        match splitAtDot cs with
        | some (ip, fp) => some (c :: ip, fp)
        | none => none

/-- Model of Python `float(s)` restricted to plain unsigned decimal literals
(the shape `priceUsd` takes in the feed): `none` models `ValueError`.
`"1.50"` parses to `mkRat 150 100 = 3/2`. -/
def parseDecimal (s : String) : Option ℚ :=
  match splitAtDot s.toList with
  | none => none
  | some (ip, fp) =>
      if ip.all isDigitChar && fp.all isDigitChar && (ip.length + fp.length != 0) then
        some (mkRat (digitsVal ip * 10 ^ fp.length + digitsVal fp) (10 ^ fp.length))
      else none

/-- Fractional digits of `rem / den`, `fuel` bounding the length. -/
def decimalDigits : Nat → Nat → Nat → List Char
  | 0, _, _ => []
  | _, 0, _ => []
  | fuel + 1, rem, den =>
      let rem10 := rem * 10
      Char.ofNat (48 + rem10 / den) :: decimalDigits fuel (rem10 % den) den

/-- Model of Python float formatting (`f"{amount}"`) for the nonnegative
decimal-denominator rationals the bot actually formats: `0.1` prints as "0.1". -/
def decimalRepr (q : ℚ) : String :=
  let n := q.num.toNat
  let den := q.den
  let ip := toString (n / den)
  match decimalDigits 17 (n % den) den with
  | [] => ip ++ ".0"
  | ds => ip ++ "." ++ String.mk ds

/-- `sub` occurs as a contiguous run inside `l`. -/
def containsSub : List Char → List Char → Bool
  | [], sub => sub.isEmpty
  | c :: tl, sub => sub.isPrefixOf (c :: tl) || containsSub tl sub

/-- `sub` occurs somewhere in `s` (used to state "message contains ..."). -/
def containsStr (s sub : String) : Bool := containsSub s.toList sub.toList

/-! ### The bot's Telegram configuration (`_init_telegram`, bot.py:41-45) -/

/-- The raw `telegram` section of `config.yaml`: `trade_chat_id` is optional. -/
structure RawTelegramConfig where
  bot_token : String
  chat_id : String
  trade_chat_id : Option String
deriving DecidableEq, Repr

/-- The fields set on `self` by `_init_telegram`. -/
structure TelegramState where
  bot_token : String
  chat_id : String
  trade_chat_id : String
deriving DecidableEq, Repr

/-- `_init_telegram` (bot.py:41-45): `self.trade_chat_id =
self.config['telegram'].get('trade_chat_id', self.chat_id)`. -/
def init_telegram (c : RawTelegramConfig) : TelegramState :=
  { bot_token := c.bot_token
    chat_id := c.chat_id
    trade_chat_id := c.trade_chat_id.getD c.chat_id }

/-- The `chat_id = self.trade_chat_id if is_trade else self.chat_id`
resolution at the top of `send_telegram_msg` (bot.py:49). -/
def resolved_chat (cfg : TelegramState) (is_trade : Bool) : String :=
  if is_trade then cfg.trade_chat_id else cfg.chat_id

/-- `requests.Response.raise_for_status` raises `HTTPError` exactly for
status codes in `[400, 600)`. -/
def raise_for_status_fails (status : Nat) : Bool :=
  400 ≤ status && status < 600

/-! ### `send_telegram_msg` (bot.py:47-60) -/

/-- `send_telegram_msg` (bot.py:47-60): resolve the destination, post, call
`raise_for_status`, and swallow any exception with a local print. -/
def send_telegram_msg (cfg : TelegramState) (w : World) (text : String)
    (is_trade : Bool) : Proc Unit :=
  let chat_id := resolved_chat cfg is_trade
  tryCatchP
    (bindP (emit (Event.telegramPost is_trade chat_id text)) (fun _ =>
      match w.telegram chat_id text with
      | TgOutcome.netErr e => throwP e
      | TgOutcome.resp status =>
          if raise_for_status_fails status then throwP "HTTPError" else pureP ()))
    (fun e => emit (Event.telegramLog ("Telegram error: " ++ e)))

/-- The exact events one `send_telegram_msg` call appends to the trace:
one post attempt, followed by the local diagnostic when the transport fails. -/
def tg_events (cfg : TelegramState) (w : World) (text : String)
    (is_trade : Bool) : List Event :=
  let chat_id := resolved_chat cfg is_trade
  Event.telegramPost is_trade chat_id text ::
    (match w.telegram chat_id text with
     | TgOutcome.netErr e => [Event.telegramLog ("Telegram error: " ++ e)]
     | TgOutcome.resp status =>
         if raise_for_status_fails status then [Event.telegramLog "Telegram error: HTTPError"]
         else [])

/-! ### `_log_trade` (bot.py:74-88) and `execute_trade` (bot.py:62-72) -/

/-- `_log_trade` (bot.py:74-88): one `INSERT INTO trades`; a database
exception propagates to the caller. -/
def log_trade (w : World) (pair_data : Pair) (action : String)
    (amount price : ℚ) : Proc Unit :=
  match w.ledger pair_data.pairAddress with
  | some e => throwP e
  | none => emit (Event.ledgerInsert pair_data.pairAddress action amount price)

/-- The command string `f"/{action} {symbol} {amount}"` formatted at
bot.py:68. -/
def trade_command (action : String) (pair_data : Pair) (amount : ℚ) : String :=
  "/" ++ action ++ " " ++ pair_data.baseTokenSymbol ++ " " ++ decimalRepr amount

/-- `execute_trade` (bot.py:62-72): read symbol, convert `priceUsd` with
`float` (may raise `ValueError`), format the trade command, send it on the
trade channel, then record the trade. -/
def execute_trade (cfg : TelegramState) (w : World) (action : String)
    (pair_data : Pair) (amount : ℚ) : Proc Unit :=
  match parseDecimal pair_data.priceUsd with
  | none => throwP "ValueError"
  | some price =>
      bindP (send_telegram_msg cfg w (trade_command action pair_data amount) true) (fun _ =>
        log_trade w pair_data action amount price)

/-! ### `_fetch_pairs` (bot.py:109-116) and `_is_valid_trade` (bot.py:118-122) -/

/-- `_fetch_pairs` (bot.py:109-116): `response.json().get('pairs', [])`
inside a `try` whose handler prints and returns `[]`.  Note that the HTTP
status code is never inspected (there is no `raise_for_status` here). -/
def fetch_pairs (w : World) : Proc (List Pair) :=
  tryCatchP
    (match w.fetch with
     | FetchOutcome.reqExn e => throwP e
     | FetchOutcome.jsonExn _ e => throwP e
     | FetchOutcome.notDict _ => throwP "AttributeError"
     | FetchOutcome.noPairs _ => pureP []
     | FetchOutcome.pairsList _ ps => pureP ps)
    (fun e => bindP (emit (Event.apiLog ("API error: " ++ e))) (fun _ => pureP []))

/-- `_is_valid_trade` (bot.py:118-122): `liquidity > 100000 and volume >
500000`, with missing fields defaulted to 0 by `pair.get(..., 0)`. -/
def is_valid_trade (pair : Pair) : Bool :=
  let liquidity := pair.liquidity.getD 0
  let volume := pair.volumeH24.getD 0
  decide (liquidity > 100000) && decide (volume > 500000)

/-! ### `analyze_and_trade` (bot.py:90-107) -/

/-- The `for pair in pairs:` body of the cycle (bot.py:97-102): trade on
each pair passing the filter and confirm with a status message. -/
def process_pairs (cfg : TelegramState) (w : World) : List Pair → Proc Unit
  | [] => pureP ()
  | pair :: rest =>
      bindP
        (if is_valid_trade pair then
          bindP (execute_trade cfg w "buy" pair (mkRat 1 10)) (fun _ =>
            send_telegram_msg cfg w
              ("✅ Bought " ++ pair.baseTokenSymbol ++ " at $" ++ pair.priceUsd) false)
        else pureP ())
        (fun _ => process_pairs cfg w rest)

/-- The `try` block of one `while True` iteration (bot.py:95-103), without
the sleep: fetch the pairs and process them. -/
def cycle_body (cfg : TelegramState) (w : World) : Proc Unit :=
  bindP (fetch_pairs w) (fun pairs => process_pairs cfg w pairs)

/-- One full iteration of the `while True` loop (bot.py:94-107).  The
returned number is the argument of the `time.sleep` that ends the
iteration: 300 on success, 60 after the `except` handler ran. -/
def analyze_cycle (cfg : TelegramState) (w : World) : Proc Nat :=
  tryCatchP
    (bindP (cycle_body cfg w) (fun _ => pureP 300))
    (fun e => bindP (send_telegram_msg cfg w ("❌ Error: " ++ e) false) (fun _ =>
      pureP 60))

/-- `n` iterations of the `while True` loop, collecting each iteration's
sleep length. -/
def analyze_cycles (cfg : TelegramState) (w : World) : Nat → Proc (List Nat)
  | 0 => pureP []
  | n + 1 =>
      bindP (analyze_cycle cfg w) (fun s =>
        bindP (analyze_cycles cfg w n) (fun ss => pureP (s :: ss)))

/-- `analyze_and_trade` (bot.py:90-107) truncated to `n` loop iterations:
the one-time start message, then the loop. -/
def analyze_and_trade (cfg : TelegramState) (w : World) (n : Nat) : Proc (List Nat) :=
  bindP (send_telegram_msg cfg w "🚀 Trading bot started" false) (fun _ =>
    analyze_cycles cfg w n)

/-! ### Trace observables used by the claims -/

/-- Number of Telegram post attempts flagged as trade commands. -/
def countTradePosts (t : List Event) : Nat :=
  t.countP (fun e =>
    match e with
    | Event.telegramPost true _ _ => true
    | _ => false)

/-- Number of Telegram post attempts (any destination). -/
def countPosts (t : List Event) : Nat :=
  t.countP (fun e =>
    match e with
    | Event.telegramPost _ _ _ => true
    | _ => false)

/-- Number of rows inserted into the `trades` table. -/
def countInserts (t : List Event) : Nat :=
  t.countP (fun e =>
    match e with
    | Event.ledgerInsert _ _ _ _ => true
    | _ => false)

/-! ### Concrete fixtures used by the closed theorems and witnesses -/

/-- A configuration with distinct status channel "A" and trade channel "B". -/
def cfgW : TelegramState := { bot_token := "tok", chat_id := "A", trade_chat_id := "B" }

/-- The qualifying pair of the spec's worked example. -/
def fooPair : Pair :=
  { pairAddress := "0xabc", baseTokenSymbol := "FOO", priceUsd := "1.50"
    liquidity := some (mkRat 200000 1), volumeH24 := some (mkRat 600000 1) }

/-- Everything succeeds and the feed reports exactly `fooPair`. -/
def wQ : World :=
  { telegram := fun _ _ => TgOutcome.resp 200
    ledger := fun _ => none
    fetch := FetchOutcome.pairsList 200 [fooPair] }

/-- As `wQ`, but every database insert raises. -/
def wLedgerFail : World :=
  { telegram := fun _ _ => TgOutcome.resp 200
    ledger := fun _ => some "db down"
    fetch := FetchOutcome.pairsList 200 [fooPair] }

/-- The feed responds with zero pairs. -/
def wEmpty : World :=
  { telegram := fun _ _ => TgOutcome.resp 200
    ledger := fun _ => none
    fetch := FetchOutcome.pairsList 200 [] }

/-- The feed responds with HTTP 500 yet a body whose `pairs` list is
nonempty. -/
def w500 : World :=
  { telegram := fun _ _ => TgOutcome.resp 200
    ledger := fun _ => none
    fetch := FetchOutcome.pairsList 500 [fooPair] }

/-- The feed request raises (e.g. a timeout). -/
def wTimeout : World :=
  { telegram := fun _ _ => TgOutcome.resp 200
    ledger := fun _ => none
    fetch := FetchOutcome.reqExn "timeout" }

/-- Every Telegram post fails with a network error. -/
def wNetErr : World :=
  { telegram := fun _ _ => TgOutcome.netErr "conn refused"
    ledger := fun _ => none
    fetch := FetchOutcome.pairsList 200 [fooPair] }

/-! ### Helper lemmas -/

/-- `send_telegram_msg` always succeeds and appends exactly `tg_events`. -/
theorem send_spec (cfg : TelegramState) (w : World) (text : String)
    (is_trade : Bool) (t : List Event) :
    send_telegram_msg cfg w text is_trade t
      = (Except.ok (), t ++ tg_events cfg w text is_trade) := by
  unfold send_telegram_msg tg_events
  cases h : w.telegram (resolved_chat cfg is_trade) text with
  | netErr e => simp [tryCatchP, bindP, emit, throwP, h]
  | resp s =>
      cases hf : raise_for_status_fails s <;>
        simp [tryCatchP, bindP, emit, throwP, pureP, h, hf]

/-- The events of one `send_telegram_msg` call contain no database insert
and exactly one post attempt. -/
theorem tg_events_shape (cfg : TelegramState) (w : World) (text : String)
    (is_trade : Bool) :
    countInserts (tg_events cfg w text is_trade) = 0 ∧
    countPosts (tg_events cfg w text is_trade) = 1 ∧
    countTradePosts (tg_events cfg w text is_trade) = (if is_trade then 1 else 0) := by
  unfold tg_events
  cases h : w.telegram (resolved_chat cfg is_trade) text with
  | netErr e => cases is_trade <;> simp [countInserts, countPosts, countTradePosts, h]
  | resp s =>
      cases hf : raise_for_status_fails s <;> cases is_trade <;>
        simp [countInserts, countPosts, countTradePosts, h, hf]

/-- `_fetch_pairs` appends at most a local diagnostic: no posts, no inserts. -/
theorem fetch_pairs_extra (w : World) (t : List Event) :
    ∃ ex, (fetch_pairs w t).2 = t ++ ex ∧
      countTradePosts ex = 0 ∧ countInserts ex = 0 ∧ countPosts ex = 0 := by
  cases h : w.fetch <;>
    simp [fetch_pairs, tryCatchP, bindP, emit, pureP, throwP, h,
      countTradePosts, countInserts, countPosts]

/-- Trade-post counts add over concatenated traces. -/
theorem countTradePosts_append (a b : List Event) :
    countTradePosts (a ++ b) = countTradePosts a + countTradePosts b := by
  simp [countTradePosts, List.countP_append]

/-- Insert counts add over concatenated traces. -/
theorem countInserts_append (a b : List Event) :
    countInserts (a ++ b) = countInserts a + countInserts b := by
  simp [countInserts, List.countP_append]

/-- One loop iteration never escapes the `try/except`: its result is `ok`. -/
theorem analyze_cycle_ok (cfg : TelegramState) (w : World) (t : List Event) :
    isOkE (analyze_cycle cfg w t).1 = true := by
  rcases hcb : cycle_body cfg w t with ⟨r, t'⟩
  cases r with
  | ok a => simp [analyze_cycle, tryCatchP, bindP, hcb, pureP, isOkE]
  | error e => simp [analyze_cycle, tryCatchP, bindP, hcb, send_spec, pureP, isOkE]

/-- Any number of loop iterations completes with `ok`: the loop re-enters. -/
theorem analyze_cycles_ok (cfg : TelegramState) (w : World) (n : Nat)
    (t : List Event) :
    isOkE (analyze_cycles cfg w n t).1 = true := by
  induction n generalizing t with
  | zero => simp [analyze_cycles, pureP, isOkE]
  | succ n ih =>
      rcases hc : analyze_cycle cfg w t with ⟨r, t'⟩
      have hok := analyze_cycle_ok cfg w t
      rw [hc] at hok
      cases r with
      | error e => simp [isOkE] at hok
      | ok s =>
          rcases hcs : analyze_cycles cfg w n t' with ⟨r', t''⟩
          have hok' := ih t'
          rw [hcs] at hok'
          cases r' with
          | error e => simp [isOkE] at hok'
          | ok ss => simp [analyze_cycles, bindP, hc, hcs, pureP, isOkE]

/-! ### Claim theorems -/

/-- C1: `_is_valid_trade` returns true iff the pair's liquidity is strictly
above 100,000 and its 24h volume strictly above 500,000. -/
theorem strategy_filter_iff (p : Pair) (l v : ℚ)
    (hl : p.liquidity = some l) (hv : p.volumeH24 = some v) :
    is_valid_trade p = true ↔ (100000 < l ∧ 500000 < v) := by
  simp [is_valid_trade, hl, hv]

/-- Witness for C1 at the qualifying fixture pair. -/
theorem strategy_filter_iff_witness : is_valid_trade fooPair = true :=
  (strategy_filter_iff fooPair (mkRat 200000 1) (mkRat 600000 1) rfl rfl).2
    (by constructor <;> decide)

/-- C10: a pair with a missing liquidity field, or missing volume (h24)
field, is judged with the missing value defaulted to 0, hence rejected,
and `_is_valid_trade` (a total function here) raises no exception. -/
theorem missing_fields_rejected (p : Pair)
    (h : p.liquidity = none ∨ p.volumeH24 = none) :
    is_valid_trade p = false := by
  rcases h with h | h <;> simp [is_valid_trade, h]

/-- Witness for C10: a pair with no liquidity field but huge volume. -/
theorem missing_fields_rejected_witness :
    is_valid_trade
      { pairAddress := "0xdef", baseTokenSymbol := "BAR", priceUsd := "2"
        liquidity := none, volumeH24 := some (mkRat 600000 1) } = false :=
  missing_fields_rejected _ (Or.inl rfl)

/-- C5: `send_telegram_msg` never raises to its caller: it returns `ok`
and appends exactly one post attempt (no retry); a transport failure is
swallowed, leaving only the local `print` diagnostic in the trace. -/
theorem notifier_swallows_failures (cfg : TelegramState) (w : World)
    (text : String) (is_trade : Bool) (t : List Event) :
    send_telegram_msg cfg w text is_trade t
        = (Except.ok (), t ++ tg_events cfg w text is_trade) ∧
    countPosts (tg_events cfg w text is_trade) = 1 ∧
    (∀ e, w.telegram (resolved_chat cfg is_trade) text = TgOutcome.netErr e →
      Event.telegramLog ("Telegram error: " ++ e) ∈ tg_events cfg w text is_trade) := by
  refine ⟨send_spec cfg w text is_trade t, (tg_events_shape cfg w text is_trade).2.1, ?_⟩
  intro e h
  simp [tg_events, h]

/-- Witness for C5: a refused connection is absorbed; the call still
returns `ok` with the attempt and the diagnostic on the trace. -/
theorem notifier_swallows_failures_witness :
    send_telegram_msg cfgW wNetErr "hi" false []
        = (Except.ok (), [Event.telegramPost false "A" "hi",
            Event.telegramLog "Telegram error: conn refused"]) ∧
    Event.telegramLog "Telegram error: conn refused" ∈ tg_events cfgW wNetErr "hi" false :=
  ⟨(notifier_swallows_failures cfgW wNetErr "hi" false []).1,
   (notifier_swallows_failures cfgW wNetErr "hi" false []).2.2 "conn refused" rfl⟩

/-- C2: on the spec's worked example (one qualifying pair FOO at price
"1.50"), one cycle posts exactly the command "/buy FOO 0.1" to the trade
channel "B", inserts exactly the row (0xabc, buy, 0.1, 1.50), posts a
status confirmation containing "FOO" and "1.50", and sleeps 300. -/
theorem qualifying_pair_cycle :
    analyze_cycle cfgW wQ []
        = (Except.ok 300,
           [Event.telegramPost true "B" "/buy FOO 0.1",
            Event.ledgerInsert "0xabc" "buy" (mkRat 1 10) (mkRat 3 2),
            Event.telegramPost false "A" "✅ Bought FOO at $1.50"]) ∧
    countTradePosts (analyze_cycle cfgW wQ []).2 = 1 ∧
    countInserts (analyze_cycle cfgW wQ []).2 = 1 ∧
    mkRat 3 2 = mkRat 150 100 ∧
    containsStr "✅ Bought FOO at $1.50" "FOO" = true ∧
    containsStr "✅ Bought FOO at $1.50" "1.50" = true := by
  refine ⟨by decide, by decide, by decide, by decide, by decide, by decide⟩

/-- C3: a cycle that raises is caught: the handler sends a status message
describing the error and the iteration's sleep is 60; a cycle that
completes sleeps 300; in every case (and for any number of iterations)
the loop result is `ok`, so the `while True` loop re-enters. -/
theorem cycle_error_backoff (cfg : TelegramState) (w : World) (t : List Event) :
    isOkE (analyze_cycle cfg w t).1 = true ∧
    (∀ n, isOkE (analyze_cycles cfg w n t).1 = true) ∧
    (∀ t', cycle_body cfg w t = (Except.ok (), t') →
      analyze_cycle cfg w t = (Except.ok 300, t')) ∧
    (∀ e t', cycle_body cfg w t = (Except.error e, t') →
      analyze_cycle cfg w t
          = (Except.ok 60, t' ++ tg_events cfg w ("❌ Error: " ++ e) false) ∧
        Event.telegramPost false cfg.chat_id ("❌ Error: " ++ e)
          ∈ (analyze_cycle cfg w t).2) := by
  refine ⟨analyze_cycle_ok cfg w t, fun n => analyze_cycles_ok cfg w n t, ?_, ?_⟩
  · intro t' h
    simp [analyze_cycle, tryCatchP, bindP, h, pureP]
  · intro e t' h
    have hcy : analyze_cycle cfg w t
        = (Except.ok 60, t' ++ tg_events cfg w ("❌ Error: " ++ e) false) := by
      simp [analyze_cycle, tryCatchP, bindP, h, send_spec, pureP]
    refine ⟨hcy, ?_⟩
    rw [hcy]
    simp [tg_events, resolved_chat]

/-- Witness for C3: with a failing database the cycle sleeps 60 and posts
the error status; with everything healthy it sleeps 300. -/
theorem cycle_error_backoff_witness :
    analyze_cycle cfgW wLedgerFail []
        = (Except.ok 60,
           [Event.telegramPost true "B" "/buy FOO 0.1",
            Event.telegramPost false "A" "❌ Error: db down"]) ∧
    analyze_cycle cfgW wEmpty [] = (Except.ok 300, []) :=
  ⟨((cycle_error_backoff cfgW wLedgerFail []).2.2.2 "db down"
      [Event.telegramPost true "B" "/buy FOO 0.1"] (by decide)).1,
   (cycle_error_backoff cfgW wEmpty []).2.2.1 [] (by decide)⟩

/-- C4, counterexample: the claim says a non-2xx response yields an empty
sequence, but `_fetch_pairs` never inspects the status code: an HTTP 500
response whose body still carries a `pairs` list is returned as-is. -/
theorem fetch_non2xx_counterexample :
    raise_for_status_fails 500 = true ∧
    (500 < 200 ∨ 300 ≤ 500) ∧
    fetch_pairs w500 [] = (Except.ok [fooPair], []) ∧
    [fooPair] ≠ ([] : List Pair) := by
  refine ⟨by decide, by decide, by decide, by decide⟩

/-- C4, amended: `_fetch_pairs` never raises; it returns the empty list
when the request raises, the body is malformed or not an object, or the
object lacks a `pairs` key; but the HTTP status code is never checked, so
any body with a `pairs` list is returned whatever the status was. -/
theorem fetch_absorbs_failures (w : World) (t : List Event) :
    isOkE (fetch_pairs w t).1 = true ∧
    (∀ e, w.fetch = FetchOutcome.reqExn e →
      fetch_pairs w t = (Except.ok [], t ++ [Event.apiLog ("API error: " ++ e)])) ∧
    (∀ st e, w.fetch = FetchOutcome.jsonExn st e →
      fetch_pairs w t = (Except.ok [], t ++ [Event.apiLog ("API error: " ++ e)])) ∧
    (∀ st, w.fetch = FetchOutcome.notDict st →
      fetch_pairs w t = (Except.ok [], t ++ [Event.apiLog "API error: AttributeError"])) ∧
    (∀ st, w.fetch = FetchOutcome.noPairs st →
      fetch_pairs w t = (Except.ok [], t)) ∧
    (∀ st ps, w.fetch = FetchOutcome.pairsList st ps →
      fetch_pairs w t = (Except.ok ps, t)) := by
  refine ⟨?_, ?_, ?_, ?_, ?_, ?_⟩
  · cases h : w.fetch <;>
      simp [fetch_pairs, tryCatchP, bindP, emit, pureP, throwP, h, isOkE]
  · intro e h
    simp [fetch_pairs, tryCatchP, bindP, emit, pureP, throwP, h]
  · intro st e h
    simp [fetch_pairs, tryCatchP, bindP, emit, pureP, throwP, h]
  · intro st h
    simp [fetch_pairs, tryCatchP, bindP, emit, pureP, throwP, h]
  · intro st h
    simp [fetch_pairs, tryCatchP, bindP, emit, pureP, throwP, h]
  · intro st ps h
    simp [fetch_pairs, tryCatchP, bindP, emit, pureP, throwP, h]

/-- Witness for C4 amended: a timeout yields the empty list plus the local
diagnostic; the HTTP 500 body with pairs comes back unchanged. -/
theorem fetch_absorbs_failures_witness :
    fetch_pairs wTimeout [] = (Except.ok [], [Event.apiLog "API error: timeout"]) ∧
    fetch_pairs w500 [] = (Except.ok [fooPair], []) :=
  ⟨(fetch_absorbs_failures wTimeout []).2.1 "timeout" rfl,
   (fetch_absorbs_failures w500 []).2.2.2.2.2 500 [fooPair] rfl⟩

/-- C6: a cycle whose feed call returns zero pairs adds no trade-channel
post and no ledger insert to the trace, and sleeps the 300-second success
interval. -/
theorem empty_feed_frame (cfg : TelegramState) (w : World) (t t' : List Event)
    (h : fetch_pairs w t = (Except.ok [], t')) :
    analyze_cycle cfg w t = (Except.ok 300, t') ∧
    countTradePosts t' = countTradePosts t ∧
    countInserts t' = countInserts t := by
  have hcb : cycle_body cfg w t = (Except.ok (), t') := by
    simp [cycle_body, bindP, h, process_pairs, pureP]
  refine ⟨by simp [analyze_cycle, tryCatchP, bindP, hcb, pureP], ?_, ?_⟩
  · obtain ⟨ex, hex, h1, h2, h3⟩ := fetch_pairs_extra w t
    rw [h] at hex
    simp only [] at hex
    subst hex
    rw [countTradePosts_append, h1]
    omega
  · obtain ⟨ex, hex, h1, h2, h3⟩ := fetch_pairs_extra w t
    rw [h] at hex
    simp only [] at hex
    subst hex
    rw [countInserts_append, h2]
    omega

/-- Witness for C6: with the zero-pair feed the cycle leaves the trace
empty and sleeps 300. -/
theorem empty_feed_frame_witness :
    analyze_cycle cfgW wEmpty [] = (Except.ok 300, []) :=
  (empty_feed_frame cfgW wEmpty [] [] (by decide)).1

/-- C7: the same qualifying pair presented in two successive cycles is
traded twice: the two-cycle trace is literally two copies of the one-cycle
trace, with two trade commands and two ledger rows — no dedup state. -/
theorem no_dedup_across_cycles :
    (analyze_cycles cfgW wQ 2 []).2
        = (analyze_cycle cfgW wQ []).2 ++ (analyze_cycle cfgW wQ []).2 ∧
    countTradePosts (analyze_cycles cfgW wQ 2 []).2 = 2 ∧
    countInserts (analyze_cycles cfgW wQ 2 []).2 = 2 ∧
    countTradePosts (analyze_cycle cfgW wQ []).2 = 1 ∧
    countInserts (analyze_cycle cfgW wQ []).2 = 1 := by
  refine ⟨by decide, by decide, by decide, by decide, by decide⟩

/-- C8: when `telegram.trade_chat_id` is absent from the configuration,
`_init_telegram` resolves the trade destination to the status channel's id,
so a trade-flagged send posts to the same channel id as a status send. -/
theorem trade_channel_defaults (c : RawTelegramConfig) (w : World)
    (text : String) (t : List Event) (h : c.trade_chat_id = none) :
    resolved_chat (init_telegram c) true = resolved_chat (init_telegram c) false ∧
    Event.telegramPost true (resolved_chat (init_telegram c) false) text
      ∈ (send_telegram_msg (init_telegram c) w text true t).2 := by
  have h1 : resolved_chat (init_telegram c) true = resolved_chat (init_telegram c) false := by
    simp [resolved_chat, init_telegram, h]
  refine ⟨h1, ?_⟩
  rw [send_spec]
  rw [← h1]
  simp [tg_events]

/-- Witness for C8 on a config with no trade chat id. -/
theorem trade_channel_defaults_witness :
    resolved_chat (init_telegram { bot_token := "tok", chat_id := "A", trade_chat_id := none }) true
      = resolved_chat (init_telegram { bot_token := "tok", chat_id := "A", trade_chat_id := none }) false ∧
    Event.telegramPost true "A" "hi"
      ∈ (send_telegram_msg (init_telegram { bot_token := "tok", chat_id := "A", trade_chat_id := none }) wQ "hi" true []).2 :=
  trade_channel_defaults { bot_token := "tok", chat_id := "A", trade_chat_id := none } wQ "hi" [] rfl

/-- C9: in `execute_trade` the trade-channel send strictly precedes the
ledger insert: the appended events are the send's events (which contain no
insert and exactly one post, the command being their head) followed, when
the database call succeeds, by the one insert; a notifier transport
failure changes only the send's events, never the insert; and when the
insert raises, the command post is already on the trace. -/
theorem execute_trade_send_before_insert (cfg : TelegramState) (w : World)
    (action : String) (pair : Pair) (amount price : ℚ) (t : List Event)
    (hp : parseDecimal pair.priceUsd = some price) :
    (w.ledger pair.pairAddress = none →
      execute_trade cfg w action pair amount t
        = (Except.ok (), t ++ tg_events cfg w (trade_command action pair amount) true
            ++ [Event.ledgerInsert pair.pairAddress action amount price])) ∧
    (∀ e, w.ledger pair.pairAddress = some e →
      execute_trade cfg w action pair amount t
        = (Except.error e, t ++ tg_events cfg w (trade_command action pair amount) true)) ∧
    (tg_events cfg w (trade_command action pair amount) true).head?
        = some (Event.telegramPost true (resolved_chat cfg true)
            (trade_command action pair amount)) ∧
    countInserts (tg_events cfg w (trade_command action pair amount) true) = 0 ∧
    countPosts (tg_events cfg w (trade_command action pair amount) true) = 1 := by
  refine ⟨?_, ?_, by simp [tg_events], (tg_events_shape cfg w _ true).1,
    (tg_events_shape cfg w _ true).2.1⟩
  · intro hl
    simp [execute_trade, hp, bindP, send_spec, log_trade, hl, emit, List.append_assoc]
  · intro e hl
    simp [execute_trade, hp, bindP, send_spec, log_trade, hl, throwP]

/-- Witness for C9: on the fixture pair with a healthy database the insert
lands right after the command post; with a failing database the command
post is on the trace and the error propagates. -/
theorem execute_trade_send_before_insert_witness :
    execute_trade cfgW wQ "buy" fooPair (mkRat 1 10) []
        = (Except.ok (),
           [Event.telegramPost true "B" "/buy FOO 0.1",
            Event.ledgerInsert "0xabc" "buy" (mkRat 1 10) (mkRat 3 2)]) ∧
    execute_trade cfgW wLedgerFail "buy" fooPair (mkRat 1 10) []
        = (Except.error "db down", [Event.telegramPost true "B" "/buy FOO 0.1"]) :=
  ⟨(execute_trade_send_before_insert cfgW wQ "buy" fooPair (mkRat 1 10) (mkRat 3 2) []
      (by decide)).1 rfl,
   (execute_trade_send_before_insert cfgW wLedgerFail "buy" fooPair (mkRat 1 10) (mkRat 3 2) []
      (by decide)).2.1 "db down" rfl⟩

end DexBot
